import Mathlib

/-!
Verification development for the PMtool TCO / preventive-maintenance analysis
engine.

The core engine is the `runAnalysis` function of
`src/server/routes/maintenance.js` (lines 688-1491 of the concatenated file):
a pure computation from a resolved scenario record (scenario + fleet units +
PM tasks + price map + component lifecycles) to a structured analysis result.
A second, partial implementation of the same engine lives in
`src/server/services/calculator.js` (`calculateFullAnalysis`); its staffing
ramp (lines 189-206) is embedded separately below.  The Weibull reliability
module of `src/unnamed/part_009` (lines 898-1070) is embedded over ℝ.

Embedding conventions:
* JavaScript numbers are idealised as exact rationals (ℚ); `Math.round`,
  `Math.floor` and `Math.ceil` become `Int.floor`/`Int.ceil` on ℚ.
* A nullable numeric field is embedded as a plain ℚ with `0` standing for
  `null`/`undefined`: every such field is consumed only through JavaScript's
  `||` operator, which treats `0`, `null` and `undefined` alike (all falsy),
  so the embedding is faithful.  `jsOr` is that operator.
* Nullable strings are embedded as `Option String` (`""` is also falsy).
* A division whose JavaScript evaluation would be `NaN`/`Infinity` (division
  by zero) is the ℚ convention `x / 0 = 0`; the engine only divides by
  quantities it has guarded to be nonzero on the paths the theorems use.
* `new Date().toISOString()` is an ambient-clock read; `runAnalysis` takes
  the clock value as an explicit `String` argument.
* The reliability module's floating-point math is idealised over ℝ, with the
  Lanczos `gammaFunction` idealised as the exact `Real.Gamma` it approximates.
-/

namespace PMtool

/-- JavaScript `a || b` for numeric fields, with `0` standing for every falsy
numeric value (`0`, `null`, `undefined`, both falling through to `b`). -/
def jsOr (a b : ℚ) : ℚ := if a = 0 then b else a

/-- JavaScript `a || b` for nullable strings (`null`/`undefined` and `""` are
falsy). -/
def jsOrStr (a : Option String) (b : String) : String :=
  match a with
  | none => b
  | some s => if s = "" then b else s

/-- JavaScript `String.prototype.toLowerCase` restricted to the ASCII strings
the engine compares (`Char.toLower` lower-cases exactly the ASCII letters). -/
def jsToLower (s : String) : String := ⟨s.data.map Char.toLower⟩

/-- The engine's `round2` helper (maintenance.js lines 1184-1186):
`Math.round(v * 100) / 100`, with `Math.round x = ⌊x + 1/2⌋`. -/
def round2 (q : ℚ) : ℚ := ((⌊q * 100 + 1/2⌋ : ℤ) : ℚ) / 100

/-- Scenario record as `runAnalysis` consumes it (the fields read from the
resolved `scenarios` row). -/
structure Scenario where
  id : ℕ
  name : String
  fleet_name : String
  analysis_period_years : ℕ
  labor_rate : ℚ
  labor_rate_specialist : ℚ
  labor_rate_engineer : ℚ
  parts_discount_pct : ℚ
  overhead_markup_pct : ℚ
  working_days_per_year : ℚ
  hours_per_day : ℚ
  target_utilization_pct : ℚ
  discount_rate_pct : ℚ
  inflation_rate_pct : ℚ
  fuel_cost_per_unit : ℚ
  downtime_cost_per_hour : ℚ
  include_fuel_costs : Bool
  include_downtime_costs : Bool

/-- Fleet unit joined with its equipment model (the `loadScenarioData` fleet
query of maintenance.js lines 714-727). -/
structure FleetUnit where
  equipment_model_id : ℕ
  unit_name : Option String
  model_number : String
  quantity : ℚ
  annual_hours : ℚ
  duty_cycle : ℚ
  application_type : Option String
  commissioning_rate_per_month : ℚ
  power_rating_kw : ℚ
  fuel_consumption_rate_full : ℚ
  fuel_consumption_rate_75 : ℚ
  fuel_consumption_rate_50 : ℚ
  fuel_consumption_unit : Option String
  default_annual_hours_standby : ℚ
  default_annual_hours_prime : ℚ
  default_annual_hours_ltp : ℚ
  default_annual_hours_continuous : ℚ

/-- Part attached to a PM task (`pm_task_parts` row). -/
structure TaskPart where
  part_number : Option String
  description : Option String
  quantity : ℚ
  is_optional : Bool

/-- PM task row with its parts (`pm_tasks` joined with `pm_task_parts`). -/
structure PMTask where
  id : ℕ
  name : String
  skill_level : Option String
  interval_hours : ℚ
  interval_months : ℚ
  labor_hours : ℚ
  is_one_time : Bool
  is_automated : Bool
  parts : List TaskPart

/-- Component lifecycle row (`component_lifecycles`). -/
structure ComponentLifecycle where
  equipment_model_id : ℕ
  component_name : String
  category : Option String
  expected_life_hours : ℚ
  replacement_labor_hours : ℚ
  criticality : Option String

/-- Price map: part number to unit price, the `priceMap` object built by
`loadScenarioData` (lines 740-746). -/
def PriceMap := List (String × ℚ)

/-- Lookup of `priceMap[partNumber]` giving the item's `unit_price`. -/
def priceLookup (m : PriceMap) (pn : String) : Option ℚ :=
  (List.find? (fun e => e.1 = pn) m).map (fun e => e.2)

/-- The resolved data record `loadScenarioData` hands to `runAnalysis`. -/
structure AnalysisData where
  scenario : Scenario
  fleetUnits : List FleetUnit
  pmTasks : List PMTask
  priceMap : PriceMap
  componentLifecycles : List ComponentLifecycle

/-- Labor-rate lookup `getLaborRate` (maintenance.js lines 763-773):
`switch ((skillLevel || 'technician').toLowerCase())` with cases
`'specialist'`, `'engineer'`, and `'technician'`/default both falling to the
base rate. -/
def getLaborRate (s : Scenario) (skillLevel : Option String) : ℚ :=
  let k := jsToLower (jsOrStr skillLevel "technician")
  if k = "specialist" then s.labor_rate_specialist
  else if k = "engineer" then s.labor_rate_engineer
  else s.labor_rate

/-- Part cost lookup `getPartCost` (lines 778-783): zero when the part number
is falsy or unpriced, else `unit_price * (1 - discountPct/100) * quantity`. -/
def getPartCost (m : PriceMap) (partNumber : Option String) (quantity discountPct : ℚ) : ℚ :=
  match partNumber with
  | none => 0
  | some pn =>
    if pn = "" then 0
    else
      match priceLookup m pn with
      | none => 0
      | some unitPrice => unitPrice * (1 - discountPct / 100) * quantity

/-- Default-hours fallback `getDefaultHours` (lines 1175-1179):
`unit['default_annual_hours_' + (application_type || 'prime')] ||
unit.default_annual_hours_prime || 6500` (an unknown application type indexes
an absent key, i.e. falsy). -/
def getDefaultHours (u : FleetUnit) : ℚ :=
  let appType := jsOrStr u.application_type "prime"
  let byKey : ℚ :=
    if appType = "standby" then u.default_annual_hours_standby
    else if appType = "prime" then u.default_annual_hours_prime
    else if appType = "ltp" then u.default_annual_hours_ltp
    else if appType = "continuous" then u.default_annual_hours_continuous
    else 0
  jsOr byKey (jsOr u.default_annual_hours_prime 6500)

/-- The per-unit hours expression `unit.annual_hours || getDefaultHours(unit)`
used throughout `runAnalysis`. -/
def unitHours (u : FleetUnit) : ℚ := jsOr u.annual_hours (getDefaultHours u)

/-- `totalUnits` (line 799): sum of unit quantities. -/
def totalUnitsOf (units : List FleetUnit) : ℚ := (units.map (fun u => u.quantity)).sum

/-- `totalKw` (line 800). -/
def totalKwOf (units : List FleetUnit) : ℚ :=
  (units.map (fun u => u.power_rating_kw * u.quantity)).sum

/-- `totalWeightedHours` (lines 803-806). -/
def totalWeightedHoursOf (units : List FleetUnit) : ℚ :=
  (units.map (fun u => unitHours u * u.quantity)).sum

/-- `avgAnnualHours` (line 807): weighted average, zero for an empty fleet. -/
def avgAnnualHoursOf (units : List FleetUnit) : ℚ :=
  if 0 < totalUnitsOf units then totalWeightedHoursOf units / totalUnitsOf units else 0

/-- Annual service count for one task (lines 816-829): one-time tasks count
once per unit, else the hours-based formula, else the calendar formula. -/
def servicesPerYear (totalUnits avgAnnualHours : ℚ) (t : PMTask) : ℚ :=
  if t.is_one_time then totalUnits
  else if t.interval_hours ≠ 0 then totalUnits * avgAnnualHours / t.interval_hours
  else if t.interval_months ≠ 0 then totalUnits * (12 / t.interval_months)
  else 0

/-- Parts cost per service for one task (lines 836-850): non-optional parts
only. -/
def partsPerService (m : PriceMap) (discountPct : ℚ) (parts : List TaskPart) : ℚ :=
  (parts.map (fun p =>
    if p.is_optional then 0
    else getPartCost m p.part_number p.quantity discountPct)).sum

/-- One entry of the per-task `partDetails` list (lines 842-849). -/
structure PartDetail where
  part_number : Option String
  description : Option String
  quantity : ℚ
  unit_cost : ℚ
  discounted_cost : ℚ
  total_cost_per_service : ℚ

/-- The `partDetails` rows pushed for the non-optional parts of a task. -/
def partDetailsOf (m : PriceMap) (discountPct : ℚ) (parts : List TaskPart) : List PartDetail :=
  parts.filterMap (fun p =>
    if p.is_optional then none
    else
      let cost := getPartCost m p.part_number p.quantity discountPct
      some
        { part_number := p.part_number
          description := p.description
          quantity := p.quantity
          unit_cost :=
            match p.part_number with
            | none => 0
            | some pn => (priceLookup m pn).getD 0
          discounted_cost := cost / jsOr p.quantity 1
          total_cost_per_service := cost })

/-- One row of `taskBreakdown` (lines 858-874). -/
structure TaskRow where
  task_id : ℕ
  task_name : String
  skill_level : Option String
  is_one_time : Bool
  interval_hours : ℚ
  interval_months : ℚ
  services_per_year : ℚ
  labor_hours_per_service : ℚ
  labor_hours_per_year : ℚ
  labor_rate : ℚ
  labor_cost_per_year : ℚ
  parts_cost_per_service : ℚ
  parts_cost_per_year : ℚ
  total_cost_per_year : ℚ
  parts : List PartDetail

/-- The breakdown row the task loop (lines 815-875) pushes for one task. -/
def taskRow (s : Scenario) (m : PriceMap) (totalUnits avgAnnualHours : ℚ) (t : PMTask) :
    TaskRow :=
  let spy := servicesPerYear totalUnits avgAnnualHours t
  let laborRate := getLaborRate s t.skill_level
  let laborHoursPerYear := spy * t.labor_hours
  let laborCostPerYear := laborHoursPerYear * laborRate
  let pps := partsPerService m s.parts_discount_pct t.parts
  let partsCostPerYear := pps * spy
  { task_id := t.id
    task_name := t.name
    skill_level := t.skill_level
    is_one_time := t.is_one_time
    interval_hours := t.interval_hours
    interval_months := t.interval_months
    services_per_year := round2 spy
    labor_hours_per_service := t.labor_hours
    labor_hours_per_year := round2 laborHoursPerYear
    labor_rate := laborRate
    labor_cost_per_year := round2 laborCostPerYear
    parts_cost_per_service := round2 pps
    parts_cost_per_year := round2 partsCostPerYear
    total_cost_per_year := round2 (laborCostPerYear + partsCostPerYear)
    parts := partDetailsOf m s.parts_discount_pct t.parts }

/-- `taskBreakdown` for the whole task list. -/
def taskBreakdownOf (d : AnalysisData) : List TaskRow :=
  d.pmTasks.map
    (taskRow d.scenario d.priceMap (totalUnitsOf d.fleetUnits) (avgAnnualHoursOf d.fleetUnits))

/-- Accumulator `totalAnnualLaborHours` (line 854). -/
def totalAnnualLaborHoursOf (d : AnalysisData) : ℚ :=
  (d.pmTasks.map (fun t =>
    servicesPerYear (totalUnitsOf d.fleetUnits) (avgAnnualHoursOf d.fleetUnits) t
      * t.labor_hours)).sum

/-- Accumulator `totalAnnualLaborCost` (line 855). -/
def totalAnnualLaborCostOf (d : AnalysisData) : ℚ :=
  (d.pmTasks.map (fun t =>
    servicesPerYear (totalUnitsOf d.fleetUnits) (avgAnnualHoursOf d.fleetUnits) t
      * t.labor_hours * getLaborRate d.scenario t.skill_level)).sum

/-- Accumulator `totalAnnualPartsCost` (line 856). -/
def totalAnnualPartsCostOf (d : AnalysisData) : ℚ :=
  (d.pmTasks.map (fun t =>
    partsPerService d.priceMap d.scenario.parts_discount_pct t.parts
      * servicesPerYear (totalUnitsOf d.fleetUnits) (avgAnnualHoursOf d.fleetUnits) t)).sum

/-- `annualMaintenanceCostBase` (line 878). -/
def maintenanceBaseOf (d : AnalysisData) : ℚ :=
  totalAnnualLaborCostOf d + totalAnnualPartsCostOf d

/-- `annualOverhead` (line 879). -/
def annualOverheadOf (d : AnalysisData) : ℚ :=
  maintenanceBaseOf d * (d.scenario.overhead_markup_pct / 100)

/-- `totalAnnualMaintenanceCost` (line 880). -/
def totalAnnualMaintenanceCostOf (d : AnalysisData) : ℚ :=
  maintenanceBaseOf d + annualOverheadOf d

/-- `availableHoursPerTech` (line 796). -/
def availableHoursPerTechOf (s : Scenario) : ℚ :=
  s.working_days_per_year * s.hours_per_day * (s.target_utilization_pct / 100)

/-- `techniciansNeeded` (lines 884-886); safety factor 1.15 (line 883). -/
def techniciansNeededOf (d : AnalysisData) : ℤ :=
  if 0 < availableHoursPerTechOf d.scenario then
    ⌈totalAnnualLaborHoursOf d * 1.15 / availableHoursPerTechOf d.scenario⌉
  else 0

/-- The `staffing` summary object (lines 888-896).  When no technician is
needed the utilisation division is `0 / 0`, taken as `0` here (JavaScript
yields `NaN` there). -/
structure Staffing where
  total_annual_labor_hours : ℚ
  available_hours_per_technician : ℚ
  safety_factor : ℚ
  technicians_needed : ℤ
  utilization_without_safety : ℚ

/-- Builds the `staffing` summary from the aggregates. -/
def staffingOf (d : AnalysisData) : Staffing :=
  { total_annual_labor_hours := round2 (totalAnnualLaborHoursOf d)
    available_hours_per_technician := round2 (availableHoursPerTechOf d.scenario)
    safety_factor := 1.15
    technicians_needed := techniciansNeededOf d
    utilization_without_safety :=
      if 0 < availableHoursPerTechOf d.scenario then
        round2 (totalAnnualLaborHoursOf d
          / ((techniciansNeededOf d : ℚ) * availableHoursPerTechOf d.scenario) * 100)
      else 0 }

/-- Duty-cycle tier selection for the fuel rate (lines 905-915):
`>= 0.85` full-load, `>= 0.6` the 75%-rate falling back to full, otherwise
the 50%-rate falling back through the chain. -/
def fuelRateFor (u : FleetUnit) : ℚ :=
  let dutyCycle := jsOr u.duty_cycle 0.75
  if 0.85 ≤ dutyCycle then jsOr u.fuel_consumption_rate_full 0
  else if 0.6 ≤ dutyCycle then
    jsOr u.fuel_consumption_rate_75 (jsOr u.fuel_consumption_rate_full 0)
  else
    jsOr u.fuel_consumption_rate_50
      (jsOr u.fuel_consumption_rate_75 (jsOr u.fuel_consumption_rate_full 0))

/-- `unitFuelCost` for one unit (line 917): `fuelRate * hours *
scenario.fuel_cost_per_unit * unit.quantity` — the rate is used in its native
unit, with no normalisation. -/
def unitFuelCost (s : Scenario) (u : FleetUnit) : ℚ :=
  fuelRateFor u * unitHours u * s.fuel_cost_per_unit * u.quantity

/-- `annualFuelCost` (lines 899-931): zero when the scenario's fuel flag is
off. -/
def annualFuelCostOf (d : AnalysisData) : ℚ :=
  if d.scenario.include_fuel_costs then
    (d.fleetUnits.map (unitFuelCost d.scenario)).sum
  else 0

/-- One `fuelDetails` row (lines 920-929). -/
structure FuelDetail where
  unit_name : String
  model_number : String
  quantity : ℚ
  annual_hours : ℚ
  duty_cycle : ℚ
  fuel_rate : ℚ
  fuel_unit : String
  annual_fuel_cost : ℚ

/-- The detail row pushed for one unit. -/
def fuelDetailFor (s : Scenario) (u : FleetUnit) : FuelDetail :=
  { unit_name := jsOrStr u.unit_name u.model_number
    model_number := u.model_number
    quantity := u.quantity
    annual_hours := unitHours u
    duty_cycle := jsOr u.duty_cycle 0.75
    fuel_rate := fuelRateFor u
    fuel_unit := jsOrStr u.fuel_consumption_unit "therms/hr"
    annual_fuel_cost := round2 (unitFuelCost s u) }

/-- `fuelDetails` (empty when the fuel flag is off). -/
def fuelDetailsOf (d : AnalysisData) : List FuelDetail :=
  if d.scenario.include_fuel_costs then d.fleetUnits.map (fuelDetailFor d.scenario)
  else []

/-- One raw replacement event before display rounding: the inner loop body of
lines 962-974 (`year = Math.ceil(yearsPerReplacement * r)`, cost inflated by
`(1 + inflationRate) ^ year`). -/
structure RawEvent where
  r : ℕ
  year : ℤ
  inflated : ℚ

/-- The raw event for replacement number `r`. -/
def rawEvent (inflationRate costPerReplacement yearsPerReplacement : ℚ) (r : ℕ) : RawEvent :=
  let year : ℤ := ⌈yearsPerReplacement * (r : ℚ)⌉
  { r := r, year := year, inflated := costPerReplacement * (1 + inflationRate) ^ year }

/-- The raw events the loop `for r = 1..n` pushes: the `break` on
`year > analysisPeriod` is a `takeWhile` on the generated sequence. -/
def rawScheduleFor (period : ℕ) (inflationRate costPerReplacement yearsPerReplacement : ℚ)
    (n : ℕ) : List RawEvent :=
  ((List.range n).map (fun i => rawEvent inflationRate costPerReplacement yearsPerReplacement (i + 1))).takeWhile
    (fun e => e.year ≤ (period : ℤ))

/-- One display entry of a component's `schedule` (lines 969-973). -/
structure SchedEntry where
  replacement_number : ℕ
  year : ℤ
  estimated_cost : ℚ

/-- Display form of a raw event (`estimated_cost` is `round2`-ed). -/
def displayEvent (e : RawEvent) : SchedEntry :=
  { replacement_number := e.r, year := e.year, estimated_cost := round2 e.inflated }

/-- One entry of `componentReplacements` (lines 976-989). -/
structure ComponentRep where
  component_name : String
  category : Option String
  model_number : String
  unit_name : Option String
  quantity : ℚ
  expected_life_hours : ℚ
  years_per_replacement : ℚ
  replacements_over_period : ℕ
  labor_hours : ℚ
  cost_per_replacement : ℚ
  criticality : Option String
  schedule : List SchedEntry

/-- The component-replacement computation for one (lifecycle, unit) pair
(lines 942-990): `none` models the two `continue` guards; the second
component of the pair is the pair's contribution to
`totalComponentCostOverPeriod` (the unrounded inflated costs, line 967). -/
def componentRepFor (s : Scenario) (m : PriceMap) (period : ℕ)
    (lc : ComponentLifecycle) (u : FleetUnit) : Option (ComponentRep × ℚ) :=
  let hours := unitHours u
  if hours ≤ 0 ∨ lc.expected_life_hours ≤ 0 then none
  else
    let yearsPerReplacement := lc.expected_life_hours / hours
    let n : ℤ := ⌊(period : ℚ) / yearsPerReplacement⌋
    if n ≤ 0 then none
    else
      let laborRate := getLaborRate s (some "specialist")
      let laborCost := lc.replacement_labor_hours * laborRate
      let partsCost := getPartCost m (some lc.component_name) 1 s.parts_discount_pct
      let costPerReplacement := laborCost + partsCost
      let raw := rawScheduleFor period (s.inflation_rate_pct / 100) costPerReplacement
        yearsPerReplacement n.toNat
      some
        ({ component_name := lc.component_name
           category := lc.category
           model_number := u.model_number
           unit_name := u.unit_name
           quantity := u.quantity
           expected_life_hours := lc.expected_life_hours
           years_per_replacement := round2 yearsPerReplacement
           replacements_over_period := raw.length
           labor_hours := lc.replacement_labor_hours
           cost_per_replacement := round2 costPerReplacement
           criticality := lc.criticality
           schedule := raw.map displayEvent },
         (raw.map (fun e => e.inflated)).sum)

/-- The (entry, cost-contribution) pairs of the whole double loop
(lines 937-991): each lifecycle against each fleet unit of its model. -/
def componentPairsOf (d : AnalysisData) : List (ComponentRep × ℚ) :=
  d.componentLifecycles.flatMap (fun lc =>
    (d.fleetUnits.filter (fun u => u.equipment_model_id = lc.equipment_model_id)).filterMap
      (componentRepFor d.scenario d.priceMap d.scenario.analysis_period_years lc))

/-- `componentReplacements`. -/
def componentRepsOf (d : AnalysisData) : List ComponentRep :=
  (componentPairsOf d).map (fun p => p.1)

/-- `totalComponentCostOverPeriod` (accumulated at line 967). -/
def totalComponentCostOf (d : AnalysisData) : ℚ :=
  ((componentPairsOf d).map (fun p => p.2)).sum

/-- `annualDowntimeCost` (lines 994-1004); the `totalServicesPerYear` sum is
over the rounded breakdown rows, and a zero service count with tasks present
is the `0 / 0 = 0` convention (JavaScript `NaN`). -/
def annualDowntimeCostOf (d : AnalysisData) : ℚ :=
  if d.scenario.include_downtime_costs then
    let totalServicesPerYear := ((taskBreakdownOf d).map (fun t => t.services_per_year)).sum
    let avgDowntimePerService :=
      if 0 < d.pmTasks.length then totalAnnualLaborHoursOf d / totalServicesPerYear * 1.5
      else 0
    totalServicesPerYear * avgDowntimePerService * d.scenario.downtime_cost_per_hour
  else 0

/-- `oneTimeCosts` (lines 1019-1021): sum of the rounded
`total_cost_per_year` of the one-time breakdown rows. -/
def oneTimeCostsOf (d : AnalysisData) : ℚ :=
  (((taskBreakdownOf d).filter (fun t => t.is_one_time)).map
    (fun t => t.total_cost_per_year)).sum

/-- `yearMaintenanceCost` for one projection year (lines 1012-1027): the
inflated total, with the one-time portion netted out after year 1 (both
inflated by the same multiplier). -/
def yearMaintenanceCostOf (d : AnalysisData) (year : ℕ) : ℚ :=
  let inflationMultiplier := (1 + d.scenario.inflation_rate_pct / 100) ^ (year - 1)
  if 1 < year then
    totalAnnualMaintenanceCostOf d * inflationMultiplier
      - oneTimeCostsOf d * inflationMultiplier
  else totalAnnualMaintenanceCostOf d * inflationMultiplier

/-- `yearFuelCost` (lines 1030-1032). -/
def yearFuelCostOf (d : AnalysisData) (year : ℕ) : ℚ :=
  if d.scenario.include_fuel_costs then
    annualFuelCostOf d * (1 + d.scenario.inflation_rate_pct / 100) ^ (year - 1)
  else 0

/-- `yearDowntimeCost` (lines 1035-1037). -/
def yearDowntimeCostOf (d : AnalysisData) (year : ℕ) : ℚ :=
  if d.scenario.include_downtime_costs then
    annualDowntimeCostOf d * (1 + d.scenario.inflation_rate_pct / 100) ^ (year - 1)
  else 0

/-- `yearComponentCost` (lines 1040-1047): the rounded scheduled costs of the
events landing in this year, each times the component's unit quantity. -/
def yearComponentCostOf (d : AnalysisData) (year : ℕ) : ℚ :=
  ((componentRepsOf d).map (fun c =>
    (((c.schedule.filter (fun e => e.year = (year : ℤ))).map
      (fun e => e.estimated_cost)).sum) * c.quantity)).sum

/-- `yearTotalCost` (line 1049). -/
def yearTotalCostOf (d : AnalysisData) (year : ℕ) : ℚ :=
  yearMaintenanceCostOf d year + yearFuelCostOf d year + yearDowntimeCostOf d year
    + yearComponentCostOf d year

/-- Running `cumulativeCost` after `year` iterations (line 1050): the prefix
sum of the year totals. -/
def cumulativeCostOf (d : AnalysisData) (year : ℕ) : ℚ :=
  ((List.range year).map (fun i => yearTotalCostOf d (i + 1))).sum

/-- `yearNpv` (line 1052): the year total discounted by
`(1 + discountRate) ^ year`. -/
def yearNpvOf (d : AnalysisData) (year : ℕ) : ℚ :=
  yearTotalCostOf d year / (1 + d.scenario.discount_rate_pct / 100) ^ year

/-- Running `npvTotal` after `year` iterations (line 1053). -/
def npvTotalOf (d : AnalysisData) (year : ℕ) : ℚ :=
  ((List.range year).map (fun i => yearNpvOf d (i + 1))).sum

/-- `unitsCommissioned` for one projection year (lines 1056-1069). -/
def unitsCommissionedOf (units : List FleetUnit) (year : ℕ) : ℚ :=
  (units.map (fun u =>
    let rate := jsOr u.commissioning_rate_per_month 1
    let monthsToFullDeploy : ℤ := ⌈u.quantity / rate⌉
    let yearsToFullDeploy : ℚ := (monthsToFullDeploy : ℚ) / 12
    if (year : ℤ) ≥ ⌈yearsToFullDeploy⌉ then u.quantity
    else min u.quantity ((⌊(year : ℚ) * 12 * rate⌋ : ℤ) : ℚ))).sum

/-- `yearTechsNeeded` (lines 1072-1077). -/
def yearTechsNeededOf (d : AnalysisData) (year : ℕ) : ℤ :=
  let yearLaborHoursScaled :=
    if 0 < totalUnitsOf d.fleetUnits then
      totalAnnualLaborHoursOf d * (unitsCommissionedOf d.fleetUnits year / totalUnitsOf d.fleetUnits)
    else 0
  if 0 < availableHoursPerTechOf d.scenario then
    ⌈yearLaborHoursScaled * 1.15 / availableHoursPerTechOf d.scenario⌉
  else 0

/-- One row of `annualProjections` (lines 1079-1090). -/
structure ProjRow where
  year : ℕ
  units_commissioned : ℚ
  technicians_needed : ℤ
  maintenance_cost : ℚ
  fuel_cost : ℚ
  downtime_cost : ℚ
  component_replacement_cost : ℚ
  total_cost : ℚ
  cumulative_cost : ℚ
  npv_of_year : ℚ

/-- The row pushed for one projection year. -/
def projRowOf (d : AnalysisData) (year : ℕ) : ProjRow :=
  { year := year
    units_commissioned := unitsCommissionedOf d.fleetUnits year
    technicians_needed := yearTechsNeededOf d year
    maintenance_cost := round2 (yearMaintenanceCostOf d year)
    fuel_cost := round2 (yearFuelCostOf d year)
    downtime_cost := round2 (yearDowntimeCostOf d year)
    component_replacement_cost := round2 (yearComponentCostOf d year)
    total_cost := round2 (yearTotalCostOf d year)
    cumulative_cost := round2 (cumulativeCostOf d year)
    npv_of_year := round2 (yearNpvOf d year) }

/-- `annualProjections` for years `1..analysisPeriod` (lines 1007-1091). -/
def annualProjectionsOf (d : AnalysisData) : List ProjRow :=
  (List.range d.scenario.analysis_period_years).map (fun i => projRowOf d (i + 1))

/-- `fleet_summary` of the result (lines 1113-1119). -/
structure FleetSummary where
  fleet_name : String
  total_units : ℚ
  total_kw : ℚ
  average_annual_hours : ℚ
  total_annual_kwh : ℚ

/-- `maintenance_cost_summary` (lines 1121-1127). -/
structure MaintenanceSummary where
  annual_labor_cost : ℚ
  annual_parts_cost : ℚ
  annual_overhead : ℚ
  overhead_markup_pct : ℚ
  total_annual_maintenance_cost : ℚ

/-- `fuel_summary` (lines 1133-1138). -/
structure FuelSummary where
  enabled : Bool
  fuel_cost_per_unit : ℚ
  annual_fuel_cost : ℚ
  details : List FuelDetail

/-- `downtime_summary` (lines 1140-1144). -/
structure DowntimeSummary where
  enabled : Bool
  downtime_cost_per_hour : ℚ
  annual_downtime_cost : ℚ

/-- `component_replacements` block of the result (lines 1146-1149). -/
structure ComponentBlock where
  total_cost_over_period : ℚ
  components : List ComponentRep

/-- `tco` summary (lines 1100-1106). -/
structure TcoSummary where
  total_npv : ℚ
  total_nominal : ℚ
  analysis_period_years : ℕ
  average_annual_cost : ℚ
  average_annual_cost_npv : ℚ

/-- `parameters` echo block (lines 1157-1168). -/
structure ParametersEcho where
  analysis_period_years : ℕ
  labor_rate : ℚ
  labor_rate_specialist : ℚ
  labor_rate_engineer : ℚ
  parts_discount_pct : ℚ
  overhead_markup_pct : ℚ
  discount_rate_pct : ℚ
  inflation_rate_pct : ℚ
  fuel_cost_per_unit : ℚ
  downtime_cost_per_hour : ℚ

/-- The full result record `runAnalysis` returns (lines 1108-1169). -/
structure AnalysisResult where
  scenario_id : ℕ
  scenario_name : String
  calculated_at : String
  fleet_summary : FleetSummary
  maintenance_cost_summary : MaintenanceSummary
  pm_task_breakdown : List TaskRow
  staffing : Staffing
  fuel_summary : FuelSummary
  downtime_summary : DowntimeSummary
  component_replacements : ComponentBlock
  cost_per_kwh : ℚ
  tco : TcoSummary
  annual_projections : List ProjRow
  parameters : ParametersEcho

/-- The core engine `runAnalysis` (maintenance.js lines 788-1170).  The
`now` argument is the value `new Date().toISOString()` reads from the ambient
clock at line 1111; the rest of the result is a pure function of `d`. -/
def runAnalysis (now : String) (d : AnalysisData) : AnalysisResult :=
  let totalUnits := totalUnitsOf d.fleetUnits
  let totalKw := totalKwOf d.fleetUnits
  let avgAnnualHours := avgAnnualHoursOf d.fleetUnits
  let totalAnnualKwh := totalKw * avgAnnualHours
  let period := d.scenario.analysis_period_years
  { scenario_id := d.scenario.id
    scenario_name := d.scenario.name
    calculated_at := now
    fleet_summary :=
      { fleet_name := d.scenario.fleet_name
        total_units := totalUnits
        total_kw := round2 totalKw
        average_annual_hours := round2 avgAnnualHours
        total_annual_kwh := round2 totalAnnualKwh }
    maintenance_cost_summary :=
      { annual_labor_cost := round2 (totalAnnualLaborCostOf d)
        annual_parts_cost := round2 (totalAnnualPartsCostOf d)
        annual_overhead := round2 (annualOverheadOf d)
        overhead_markup_pct := d.scenario.overhead_markup_pct
        total_annual_maintenance_cost := round2 (totalAnnualMaintenanceCostOf d) }
    pm_task_breakdown := taskBreakdownOf d
    staffing := staffingOf d
    fuel_summary :=
      { enabled := d.scenario.include_fuel_costs
        fuel_cost_per_unit := d.scenario.fuel_cost_per_unit
        annual_fuel_cost := round2 (annualFuelCostOf d)
        details := fuelDetailsOf d }
    downtime_summary :=
      { enabled := d.scenario.include_downtime_costs
        downtime_cost_per_hour := d.scenario.downtime_cost_per_hour
        annual_downtime_cost := round2 (annualDowntimeCostOf d) }
    component_replacements :=
      { total_cost_over_period := round2 (totalComponentCostOf d)
        components := componentRepsOf d }
    cost_per_kwh :=
      if 0 < totalAnnualKwh then round2 (totalAnnualMaintenanceCostOf d / totalAnnualKwh)
      else 0
    tco :=
      { total_npv := round2 (npvTotalOf d period)
        total_nominal := round2 (cumulativeCostOf d period)
        analysis_period_years := period
        average_annual_cost := round2 (cumulativeCostOf d period / (period : ℚ))
        average_annual_cost_npv := round2 (npvTotalOf d period / (period : ℚ)) }
    annual_projections := annualProjectionsOf d
    parameters :=
      { analysis_period_years := period
        labor_rate := d.scenario.labor_rate
        labor_rate_specialist := d.scenario.labor_rate_specialist
        labor_rate_engineer := d.scenario.labor_rate_engineer
        parts_discount_pct := d.scenario.parts_discount_pct
        overhead_markup_pct := d.scenario.overhead_markup_pct
        discount_rate_pct := d.scenario.discount_rate_pct
        inflation_rate_pct := d.scenario.inflation_rate_pct
        fuel_cost_per_unit := d.scenario.fuel_cost_per_unit
        downtime_cost_per_hour := d.scenario.downtime_cost_per_hour } }

/-- One row of the comparison's `scenarios` table (maintenance.js
lines 1267-1280). -/
structure ScenSummary where
  scenario_id : ℕ
  scenario_name : String
  total_units : ℚ
  total_kw : ℚ
  annual_maintenance_cost : ℚ
  annual_fuel_cost : ℚ
  annual_downtime_cost : ℚ
  cost_per_kwh : ℚ
  technicians_needed : ℤ
  tco_npv : ℚ
  tco_nominal : ℚ
  average_annual_cost : ℚ

/-- The summary row built from one full result. -/
def summarize (r : AnalysisResult) : ScenSummary :=
  { scenario_id := r.scenario_id
    scenario_name := r.scenario_name
    total_units := r.fleet_summary.total_units
    total_kw := r.fleet_summary.total_kw
    annual_maintenance_cost := r.maintenance_cost_summary.total_annual_maintenance_cost
    annual_fuel_cost := r.fuel_summary.annual_fuel_cost
    annual_downtime_cost := r.downtime_summary.annual_downtime_cost
    cost_per_kwh := r.cost_per_kwh
    technicians_needed := r.staffing.technicians_needed
    tco_npv := r.tco.total_npv
    tco_nominal := r.tco.total_nominal
    average_annual_cost := r.tco.average_annual_cost }

/-- Stable insertion of a summary into a list already ascending by `tco_npv`. -/
def sortInsert (x : ScenSummary) : List ScenSummary → List ScenSummary
  | [] => [x]
  | y :: ys => if x.tco_npv ≤ y.tco_npv then x :: y :: ys else y :: sortInsert x ys

/-- The `[...].sort((a, b) => a.tco_npv - b.tco_npv)` of line 1287, modelled
as a stable sort ascending by `tco_npv` (JavaScript's `Array.prototype.sort`
is specified stable, and the comparator orders by `tco_npv`). -/
def sortByNpv : List ScenSummary → List ScenSummary
  | [] => []
  | x :: xs => sortInsert x (sortByNpv xs)

/-- The `lowest_tco` block (lines 1288-1293). -/
structure LowestTco where
  scenario_id : ℕ
  scenario_name : String
  tco_npv : ℚ
  savings_vs_highest : ℚ

/-- The comparison response's computed part (lines 1266-1294): the summary
table and, for two or more computed scenarios, the `lowest_tco` pointer
(`sorted[0]` with savings `sorted[last] - sorted[0]`). -/
structure Comparison where
  scenarios : List ScenSummary
  lowest_tco : Option LowestTco

/-- Builds the comparison from the successfully computed results. -/
def buildComparison (results : List AnalysisResult) : Comparison :=
  let scens := results.map summarize
  { scenarios := scens
    lowest_tco :=
      if 2 ≤ scens.length then
        match (sortByNpv scens).head?, (sortByNpv scens).getLast? with
        | some best, some worst =>
          some
            { scenario_id := best.scenario_id
              scenario_name := best.scenario_name
              tco_npv := best.tco_npv
              savings_vs_highest := round2 (worst.tco_npv - best.tco_npv) }
        | _, _ => none
      else none }

/-!
Embedding of the staffing-ramp portion of `calculateFullAnalysis`
(src/server/services/calculator.js): the fleet aggregation of lines 50-59,
the required-technician count of lines 189-191, and the monthly ramp of
lines 193-206.
-/

/-- The fields of a fleet unit that calculator.js's aggregation and ramp
read. -/
structure CalcUnit where
  quantity : ℚ
  commissioning_rate_per_month : ℚ

/-- `qty = unit.quantity || 1` (calculator.js line 51). -/
def calcQty (u : CalcUnit) : ℚ := jsOr u.quantity 1

/-- `rate = unit.commissioning_rate_per_month || qty` (line 53; line 199
writes the same value as `unit.commissioning_rate_per_month ||
unit.quantity || 1`). -/
def calcRate (u : CalcUnit) : ℚ := jsOr u.commissioning_rate_per_month (calcQty u)

/-- `totalUnits` of the calculator aggregation (line 54). -/
def calcTotalUnits (units : List CalcUnit) : ℚ := (units.map calcQty).sum

/-- `maxCommissioningMonths` (lines 47, 57-59): running
`Math.max(acc, Math.ceil(qty / rate))` over the units with positive rate,
from 0. -/
def maxCommissioningMonthsOf (units : List CalcUnit) : ℤ :=
  units.foldl (fun acc u =>
    if 0 < calcRate u then max acc ⌈calcQty u / calcRate u⌉ else acc) 0

/-- `techsRequired` (lines 189-191):
`Math.ceil(totalAnnualLaborHours / availableHoursPerTech * 1.15)`. -/
def calcTechsRequired (availableHoursPerTech totalAnnualLaborHours : ℚ) : ℤ :=
  if 0 < availableHoursPerTech then
    ⌈totalAnnualLaborHours / availableHoursPerTech * 1.15⌉
  else 0

/-- `rampMonths = Math.min(36, Math.max(12, maxCommissioningMonths + 6))`
(line 195). -/
def rampMonthsOf (units : List CalcUnit) : ℤ :=
  min 36 (max 12 (maxCommissioningMonthsOf units + 6))

/-- `unitsActive` at ramp month `m` (lines 197-201). -/
def calcUnitsActive (units : List CalcUnit) (m : ℕ) : ℚ :=
  (units.map (fun u => min (calcQty u) (calcRate u * (m : ℚ)))).sum

/-- `proportionalTechs` at ramp month `m` (lines 202-204). -/
def calcTechsAtMonth (units : List CalcUnit) (techsRequired : ℤ) (m : ℕ) : ℤ :=
  if 0 < calcTotalUnits units then
    ⌈calcUnitsActive units m / calcTotalUnits units * (techsRequired : ℚ)⌉
  else 0

/-- One row of `staffingTimeline` (line 205). -/
structure RampRow where
  month : ℕ
  label : String
  units_active : ℚ
  technicians : ℤ

/-- `staffingTimeline` (lines 194-206): one row per month `1..rampMonths`. -/
def staffingTimelineOf (units : List CalcUnit) (techsRequired : ℤ) : List RampRow :=
  (List.range (rampMonthsOf units).toNat).map (fun i =>
    { month := i + 1
      label := "Month " ++ toString (i + 1)
      units_active := calcUnitsActive units (i + 1)
      technicians := calcTechsAtMonth units techsRequired (i + 1) })

/-!
Embedding over ℝ of the Weibull reliability module
(src/unnamed/part_009 lines 898-1070).  `generateFailureCurve` derives the
scale `eta = expectedLifeHours / gammaFunction(1 + 1/beta)` and reports
`b10_life = eta * 0.1054 ^ (1/beta)` and `b50_life = eta * 0.6931 ^ (1/beta)`
(lines 933-964).  The Lanczos `gammaFunction` (lines 1044-1061) is idealised
as the exact Gamma function it approximates, and the display `Math.round` of
the reported parameters is omitted: claim C6 states the unrounded formulas.
-/

/-- The Weibull scale `eta` derived at lines 937-939. -/
noncomputable def weibullEta (meanLife shape : ℝ) : ℝ :=
  meanLife / Real.Gamma (1 + 1 / shape)

/-- The reported `b10_life` (line 961, before display rounding). -/
noncomputable def b10Life (meanLife shape : ℝ) : ℝ :=
  weibullEta meanLife shape * (0.1054 : ℝ) ^ ((1 : ℝ) / shape)

/-- The reported `b50_life` (line 962, before display rounding). -/
noncomputable def b50Life (meanLife shape : ℝ) : ℝ :=
  weibullEta meanLife shape * (0.6931 : ℝ) ^ ((1 : ℝ) / shape)

/-- The per-unit fuel cost as claim C5 describes it, the behaviour
implemented by the second engine (calculator.js lines 60-66): the duty-cycle
tier rate, normalised from cubic-feet-per-hour (`'CFH'`) to the fuel-price
basis by dividing by 100, then times hours, price and quantity. -/
def normalizedUnitFuelCost (s : Scenario) (u : FleetUnit) : ℚ :=
  let raw := fuelRateFor u
  let rate := if jsOrStr u.fuel_consumption_unit "therms/hr" = "CFH" then raw / 100 else raw
  rate * unitHours u * s.fuel_cost_per_unit * u.quantity

/-- The result with its clock field blanked: equality of two results under
`stripTimestamp` says they agree in every field except `calculated_at`. -/
def stripTimestamp (r : AnalysisResult) : AnalysisResult := { r with calculated_at := "" }

/-!
Helper lemmas for evaluating the ℚ-valued floor, ceiling and `round2`.
-/

theorem ceil_eval {q : ℚ} {n : ℤ} (h1 : (n : ℚ) - 1 < q) (h2 : q ≤ (n : ℚ)) : ⌈q⌉ = n :=
  Int.ceil_eq_iff.mpr ⟨h1, h2⟩

theorem floor_eval {q : ℚ} {n : ℤ} (h1 : (n : ℚ) ≤ q) (h2 : q < (n : ℚ) + 1) : ⌊q⌋ = n :=
  Int.floor_eq_iff.mpr ⟨h1, h2⟩

theorem round2_intCast (n : ℤ) : round2 (n : ℚ) = n := by
  unfold round2
  rw [floor_eval (n := n * 100) (by push_cast; linarith) (by push_cast; linarith)]
  push_cast
  field_simp

theorem round2_eval {q r : ℚ} {n : ℤ} (hq : q = (n : ℚ)) (hr : r = (n : ℚ)) :
    round2 q = r := by
  rw [hq, round2_intCast, hr]

/-!
Concrete data used by the witnesses and counterexamples.
-/

/-- Baseline scenario: 3-year horizon, technician rate 100, specialist 180,
engineer 250, 15% overhead markup, no inflation or discounting, fuel and
downtime flags off. -/
def baseScen : Scenario :=
  { id := 1
    name := "Baseline"
    fleet_name := "Fleet A"
    analysis_period_years := 3
    labor_rate := 100
    labor_rate_specialist := 180
    labor_rate_engineer := 250
    parts_discount_pct := 0
    overhead_markup_pct := 15
    working_days_per_year := 250
    hours_per_day := 8
    target_utilization_pct := 75
    discount_rate_pct := 0
    inflation_rate_pct := 0
    fuel_cost_per_unit := 2
    downtime_cost_per_hour := 0
    include_fuel_costs := false
    include_downtime_costs := false }

/-- Ten identical 500 kW units at 6500 explicit annual hours. -/
def unitA : FleetUnit :=
  { equipment_model_id := 1
    unit_name := some "Unit 1"
    model_number := "G1000"
    quantity := 10
    annual_hours := 6500
    duty_cycle := 0.9
    application_type := some "prime"
    commissioning_rate_per_month := 1
    power_rating_kw := 500
    fuel_consumption_rate_full := 100
    fuel_consumption_rate_75 := 80
    fuel_consumption_rate_50 := 60
    fuel_consumption_unit := some "CFH"
    default_annual_hours_standby := 200
    default_annual_hours_prime := 6500
    default_annual_hours_ltp := 4000
    default_annual_hours_continuous := 8000 }

/-- A one-time task: 2 labor hours per service at the technician rate. -/
def c2task : PMTask :=
  { id := 2
    name := "Commissioning Check"
    skill_level := some "technician"
    interval_hours := 0
    interval_months := 0
    labor_hours := 2
    is_one_time := true
    is_automated := false
    parts := [] }

/-- Analysis input for claims C2 and C3: the one-time task alone against the
ten-unit fleet, with the baseline's 15% overhead markup. -/
def c2data : AnalysisData :=
  { scenario := baseScen
    fleetUnits := [unitA]
    pmTasks := [c2task]
    priceMap := []
    componentLifecycles := [] }

/-- The same input with the task removed (isolates the task's projection
contribution). -/
def c2noTask : AnalysisData := { c2data with pmTasks := [] }

/-- An hours-based task on a 500-hour interval. -/
def c4task : PMTask :=
  { id := 4
    name := "Oil Change"
    skill_level := some "technician"
    interval_hours := 500
    interval_months := 0
    labor_hours := 1
    is_one_time := false
    is_automated := false
    parts := [] }

/-- Analysis input for claim C4's witness: ten units at 6500 annual hours
against the 500-hour task. -/
def c4data : AnalysisData := { c2data with pmTasks := [c4task] }

/-- Scenario with fuel costing enabled (fuel price 2 per unit). -/
def c5scen : Scenario := { baseScen with include_fuel_costs := true }

/-- One unit at 1000 annual hours, duty cycle 0.9, full-load rate 100
cubic-feet-per-hour (`fuel_consumption_unit = "CFH"`). -/
def c5unit : FleetUnit := { unitA with quantity := 1, annual_hours := 1000 }

/-- Analysis input for claim C5's counterexample. -/
def c5data : AnalysisData :=
  { scenario := c5scen
    fleetUnits := [c5unit]
    pmTasks := []
    priceMap := []
    componentLifecycles := [] }

/-!
Claim C3 — determinism of `runAnalysis`.
-/

/-- C3 counterexample: running the engine twice on the identical resolved
input record does not produce identical output, because the result embeds
the wall-clock reading `calculated_at` (`new Date().toISOString()`,
maintenance.js line 1111): two runs at distinct clock instants differ. -/
theorem c3_counterexample :
    runAnalysis "2024-01-01T00:00:00.000Z" c2data
      ≠ runAnalysis "2024-01-02T00:00:00.000Z" c2data := by
  intro h
  have hc : (runAnalysis "2024-01-01T00:00:00.000Z" c2data).calculated_at
      = (runAnalysis "2024-01-02T00:00:00.000Z" c2data).calculated_at :=
    congrArg AnalysisResult.calculated_at h
  rw [show (runAnalysis "2024-01-01T00:00:00.000Z" c2data).calculated_at
      = "2024-01-01T00:00:00.000Z" from rfl,
    show (runAnalysis "2024-01-02T00:00:00.000Z" c2data).calculated_at
      = "2024-01-02T00:00:00.000Z" from rfl] at hc
  exact absurd hc (by decide)

/-- C3 (amended): apart from the `calculated_at` clock stamp the engine is a
pure function of its resolved input — two runs of `runAnalysis` on the same
input agree on every other field, whatever the two clock readings are. -/
theorem c3_pure_up_to_timestamp (t₁ t₂ : String) (d : AnalysisData) :
    stripTimestamp (runAnalysis t₁ d) = stripTimestamp (runAnalysis t₂ d) := rfl

/-!
Claim C4 — hours-based service count.
-/

/-- C4: for every task of the analysis input that is not one-time and not
automated and has an hours interval, the engine's annual service count is
exactly `totalUnits * avgAnnualHours / intervalHours`, and the task's
breakdown row reports that value (to two decimals). -/
theorem c4_hours_based_services (d : AnalysisData) (t : PMTask)
    (hmem : t ∈ d.pmTasks) (hot : t.is_one_time = false) (_hauto : t.is_automated = false)
    (hint : t.interval_hours ≠ 0) :
    servicesPerYear (totalUnitsOf d.fleetUnits) (avgAnnualHoursOf d.fleetUnits) t
        = totalUnitsOf d.fleetUnits * avgAnnualHoursOf d.fleetUnits / t.interval_hours
      ∧ (taskRow d.scenario d.priceMap (totalUnitsOf d.fleetUnits)
          (avgAnnualHoursOf d.fleetUnits) t).services_per_year
        = round2 (totalUnitsOf d.fleetUnits * avgAnnualHoursOf d.fleetUnits / t.interval_hours)
      ∧ taskRow d.scenario d.priceMap (totalUnitsOf d.fleetUnits)
          (avgAnnualHoursOf d.fleetUnits) t ∈ taskBreakdownOf d := by
  have hs : servicesPerYear (totalUnitsOf d.fleetUnits) (avgAnnualHoursOf d.fleetUnits) t
      = totalUnitsOf d.fleetUnits * avgAnnualHoursOf d.fleetUnits / t.interval_hours := by
    simp [servicesPerYear, hot, hint]
  refine ⟨hs, ?_, ?_⟩
  · simp only [taskRow, hs]
  · exact List.mem_map_of_mem _ hmem

/-- C4 witness: ten units at 6500 annual hours and a 500-hour interval give
the claimed formula and the value 130. -/
theorem c4_hours_based_services_witness :
    servicesPerYear (totalUnitsOf c4data.fleetUnits) (avgAnnualHoursOf c4data.fleetUnits) c4task
        = totalUnitsOf c4data.fleetUnits * avgAnnualHoursOf c4data.fleetUnits
          / c4task.interval_hours
      ∧ servicesPerYear (totalUnitsOf c4data.fleetUnits) (avgAnnualHoursOf c4data.fleetUnits)
          c4task = 130 := by
  have h := c4_hours_based_services c4data c4task (by simp [c4data, c2data]) rfl rfl
    (by norm_num [c4task])
  refine ⟨h.1, ?_⟩
  rw [h.1]
  norm_num [c4data, c2data, c4task, unitA, totalUnitsOf, avgAnnualHoursOf,
    totalWeightedHoursOf, unitHours, jsOr]

/-!
Claim C10 — silent fallback of the labor-rate lookup.
-/

/-- C10 counterexample: the claim says every `skill_level` other than the
strings `'specialist'` and `'engineer'` resolves to the base technician
rate; but `getLaborRate` lower-cases its input first, so `"SPECIALIST"` —
which is neither of those two strings — resolves to the specialist rate 180,
not the base rate 100. -/
theorem c10_counterexample :
    ("SPECIALIST" ≠ "specialist" ∧ "SPECIALIST" ≠ "engineer")
      ∧ getLaborRate baseScen (some "SPECIALIST") = baseScen.labor_rate_specialist
      ∧ getLaborRate baseScen (some "SPECIALIST") ≠ baseScen.labor_rate := by
  refine ⟨⟨by decide, by decide⟩, rfl, ?_⟩
  rw [show getLaborRate baseScen (some "SPECIALIST") = baseScen.labor_rate_specialist from rfl]
  norm_num [baseScen]

/-- C10 (amended): every `skill_level` whose lower-cased form is neither
`'specialist'` nor `'engineer'` — misspellings, the empty string, an absent
value — silently resolves to the scenario's base technician rate, and every
breakdown row for a task with such a skill level carries that rate; no error
or warning path exists. -/
theorem c10_skill_fallback (s : Scenario) (sl : Option String)
    (h1 : jsToLower (jsOrStr sl "technician") ≠ "specialist")
    (h2 : jsToLower (jsOrStr sl "technician") ≠ "engineer") :
    getLaborRate s sl = s.labor_rate
      ∧ ∀ (m : PriceMap) (tu avg : ℚ) (t : PMTask), t.skill_level = sl →
          (taskRow s m tu avg t).labor_rate = s.labor_rate := by
  have hg : getLaborRate s sl = s.labor_rate := by
    simp only [getLaborRate]
    rw [if_neg h1, if_neg h2]
  exact ⟨hg, fun m tu avg t ht => by simp only [taskRow]; rw [ht, hg]⟩

/-- C10 witness: the misspelling `"tecnician"` falls back to the base
rate. -/
theorem c10_skill_fallback_witness :
    getLaborRate baseScen (some "tecnician") = baseScen.labor_rate
      ∧ ∀ (m : PriceMap) (tu avg : ℚ) (t : PMTask), t.skill_level = some "tecnician" →
          (taskRow baseScen m tu avg t).labor_rate = baseScen.labor_rate :=
  c10_skill_fallback baseScen (some "tecnician") (by decide) (by decide)

/-!
Claim C5 — fuel-cost estimator.
-/

/-- C5 counterexample: the claim says volumetric `CFH` rates are normalised
to the fuel-price basis before multiplying; the engine multiplies the raw
rate directly.  For one unit at duty cycle 0.9, full-load rate 100 CFH,
1000 annual hours, fuel price 2: the engine reports 200000 while the claimed
(normalised) computation gives 2000. -/
theorem c5_counterexample :
    (runAnalysis "2024-01-01T00:00:00.000Z" c5data).fuel_summary.annual_fuel_cost = 200000
      ∧ normalizedUnitFuelCost c5scen c5unit = 2000
      ∧ (200000 : ℚ) ≠ 2000 := by
  have hcost : unitFuelCost c5scen c5unit = 200000 := by
    norm_num [unitFuelCost, fuelRateFor, unitHours, jsOr, c5scen, c5unit, unitA, baseScen]
  refine ⟨?_, ?_, by norm_num⟩
  · show round2 (annualFuelCostOf c5data) = 200000
    rw [show annualFuelCostOf c5data = unitFuelCost c5scen c5unit by
      simp [annualFuelCostOf, c5data, c5scen, baseScen]]
    rw [hcost]
    exact round2_eval (n := 200000) (by norm_num) (by norm_num)
  · have hu : jsOrStr c5unit.fuel_consumption_unit "therms/hr" = "CFH" := by decide
    simp only [normalizedUnitFuelCost, hu, if_pos rfl]
    norm_num [fuelRateFor, unitHours, jsOr, c5scen, c5unit, unitA, baseScen]

/-- C5 (amended): the estimator selects the consumption-rate tier by duty
cycle exactly as claimed (≥ 0.85 full-load; ≥ 0.6 the 75%-load rate falling
back to full; otherwise the 50%-load rate falling back through the chain) and
multiplies that rate directly by annual hours × fuel price × quantity; no
unit normalisation is applied — the `fuel_consumption_unit` label does not
affect the computed cost — and the fleet total is the rounded sum of the
per-unit costs. -/
theorem c5_fuel_tiers_no_normalization (s : Scenario) (u : FleetUnit) :
    (∀ x : Option String,
        unitFuelCost s { u with fuel_consumption_unit := x } = unitFuelCost s u)
      ∧ (0.85 ≤ jsOr u.duty_cycle 0.75 →
          unitFuelCost s u = jsOr u.fuel_consumption_rate_full 0 * unitHours u
            * s.fuel_cost_per_unit * u.quantity)
      ∧ (jsOr u.duty_cycle 0.75 < 0.85 → 0.6 ≤ jsOr u.duty_cycle 0.75 →
          unitFuelCost s u = jsOr u.fuel_consumption_rate_75
            (jsOr u.fuel_consumption_rate_full 0) * unitHours u
            * s.fuel_cost_per_unit * u.quantity)
      ∧ (jsOr u.duty_cycle 0.75 < 0.6 →
          unitFuelCost s u = jsOr u.fuel_consumption_rate_50
            (jsOr u.fuel_consumption_rate_75 (jsOr u.fuel_consumption_rate_full 0))
            * unitHours u * s.fuel_cost_per_unit * u.quantity)
      ∧ ∀ (d : AnalysisData) (now : String), d.scenario = s →
          s.include_fuel_costs = true →
          (runAnalysis now d).fuel_summary.annual_fuel_cost
            = round2 ((d.fleetUnits.map (unitFuelCost s)).sum) := by
  refine ⟨fun x => rfl, ?_, ?_, ?_, ?_⟩
  · intro h
    simp only [unitFuelCost, fuelRateFor]
    rw [if_pos h]
  · intro h1 h2
    simp only [unitFuelCost, fuelRateFor]
    rw [if_neg (not_le.mpr h1), if_pos h2]
  · intro h
    simp only [unitFuelCost, fuelRateFor]
    rw [if_neg (not_le.mpr (h.trans (by norm_num))), if_neg (not_le.mpr h)]
  · intro d now hd hf
    subst hd
    show round2 (annualFuelCostOf d) = _
    rw [annualFuelCostOf, if_pos hf]

/-!
Claim C2 — one-time task cost and its projection recognition.
-/

/-- C2 (amended): a one-time task with 2 labor hours, a resolved labor rate
of 100 and a 10-unit fleet costs exactly 2000 per year in labor, and its
breakdown row is part of the engine's task breakdown.  When moreover it is
the only task, it has no parts, and the overhead markup is zero, the
projection's one-time netting removes it completely from every year after
year 1.  (With a nonzero overhead markup the netting subtracts only the
pre-overhead task cost, leaving the overhead share in later years — see the
counterexample.) -/
theorem c2_one_time_task (d : AnalysisData) (t : PMTask)
    (hmem : t ∈ d.pmTasks) (hot : t.is_one_time = true) (hlh : t.labor_hours = 2)
    (hrate : getLaborRate d.scenario t.skill_level = 100)
    (htu : totalUnitsOf d.fleetUnits = 10) :
    (taskRow d.scenario d.priceMap (totalUnitsOf d.fleetUnits)
        (avgAnnualHoursOf d.fleetUnits) t).labor_cost_per_year = 2000
      ∧ taskRow d.scenario d.priceMap (totalUnitsOf d.fleetUnits)
          (avgAnnualHoursOf d.fleetUnits) t ∈ taskBreakdownOf d
      ∧ (d.pmTasks = [t] → d.scenario.overhead_markup_pct = 0 → t.parts = [] →
          ∀ y : ℕ, 1 < y → yearMaintenanceCostOf d y = 0) := by
  have hspy : servicesPerYear (totalUnitsOf d.fleetUnits) (avgAnnualHoursOf d.fleetUnits) t
      = 10 := by
    simp [servicesPerYear, hot, htu]
  have hlc : servicesPerYear (totalUnitsOf d.fleetUnits) (avgAnnualHoursOf d.fleetUnits) t
      * t.labor_hours * getLaborRate d.scenario t.skill_level = 2000 := by
    rw [hspy, hlh, hrate]; norm_num
  refine ⟨?_, List.mem_map_of_mem _ hmem, ?_⟩
  · simp only [taskRow]
    rw [hlc]
    exact round2_eval (n := 2000) (by norm_num) (by norm_num)
  · intro hsingle ho hp y hy
    have hparts0 : partsPerService d.priceMap d.scenario.parts_discount_pct t.parts = 0 := by
      rw [hp]; simp [partsPerService]
    have hlabor : totalAnnualLaborCostOf d = 2000 := by
      simp only [totalAnnualLaborCostOf, hsingle, List.map_cons, List.map_nil,
        List.sum_cons, List.sum_nil, add_zero]
      exact hlc
    have hpartsTot : totalAnnualPartsCostOf d = 0 := by
      simp only [totalAnnualPartsCostOf, hsingle, List.map_cons, List.map_nil,
        List.sum_cons, List.sum_nil, add_zero]
      rw [hparts0]; ring
    have hbase : maintenanceBaseOf d = 2000 := by
      rw [maintenanceBaseOf, hlabor, hpartsTot]; ring
    have hoh : annualOverheadOf d = 0 := by
      rw [annualOverheadOf, ho, hbase]; norm_num
    have htot : totalAnnualMaintenanceCostOf d = 2000 := by
      rw [totalAnnualMaintenanceCostOf, hbase, hoh]; ring
    have hone : oneTimeCostsOf d = 2000 := by
      simp only [oneTimeCostsOf, taskBreakdownOf, hsingle, List.map_cons, List.map_nil]
      simp only [taskRow, List.filter_cons, List.filter_nil, hot, if_pos,
        List.map_cons, List.map_nil, List.sum_cons, List.sum_nil, add_zero]
      rw [hparts0, zero_mul, hlc, add_zero]
      exact round2_eval (n := 2000) (by norm_num) (by norm_num)
    rw [yearMaintenanceCostOf, if_pos hy, htot, hone]
    ring

/-- Zero-overhead variant of the C2 scenario. -/
def c2zScen : Scenario := { baseScen with overhead_markup_pct := 0 }

/-- Zero-overhead variant of the C2 analysis input. -/
def c2zData : AnalysisData := { c2data with scenario := c2zScen }

/-- C2 witness: the concrete one-time task against the concrete ten-unit
fleet, with zero overhead markup so the netting clause is live. -/
theorem c2_one_time_task_witness :
    (taskRow c2zData.scenario c2zData.priceMap (totalUnitsOf c2zData.fleetUnits)
        (avgAnnualHoursOf c2zData.fleetUnits) c2task).labor_cost_per_year = 2000
      ∧ taskRow c2zData.scenario c2zData.priceMap (totalUnitsOf c2zData.fleetUnits)
          (avgAnnualHoursOf c2zData.fleetUnits) c2task ∈ taskBreakdownOf c2zData
      ∧ (c2zData.pmTasks = [c2task] → c2zData.scenario.overhead_markup_pct = 0 →
          c2task.parts = [] →
          ∀ y : ℕ, 1 < y → yearMaintenanceCostOf c2zData y = 0) :=
  c2_one_time_task c2zData c2task (by simp [c2zData, c2data]) rfl rfl (by decide)
    (by norm_num [c2zData, c2data, totalUnitsOf, unitA])

/-- C2 counterexample: with the repository's default 15% overhead markup the
one-time netting subtracts only the task's pre-overhead cost, so the task —
the only task of the input — still contributes 300 (its overhead share) to
the maintenance cost of years 2 and 3; the claim says its contribution after
year 1 is 0.  Removing the task gives an all-zero projection, so the whole
300 is attributable to it. -/
theorem c2_counterexample :
    ((runAnalysis "2024-01-01T00:00:00.000Z" c2data).annual_projections.map
        (fun r => (r.year, r.maintenance_cost))) = [(1, 2300), (2, 300), (3, 300)]
      ∧ ((runAnalysis "2024-01-01T00:00:00.000Z" c2noTask).annual_projections.map
        (fun r => (r.year, r.maintenance_cost))) = [(1, 0), (2, 0), (3, 0)]
      ∧ (300 : ℚ) ≠ 0 := by
  have hr0 : round2 (0 : ℚ) = 0 := round2_eval (n := 0) (by norm_num) (by norm_num)
  have hr300 : round2 (300 : ℚ) = 300 := round2_eval (n := 300) (by norm_num) (by norm_num)
  have hr2300 : round2 (2300 : ℚ) = 2300 := round2_eval (n := 2300) (by norm_num) (by norm_num)
  have hrange : List.range 3 = [0, 1, 2] := by decide
  -- the populated input
  have htu : totalUnitsOf c2data.fleetUnits = 10 := by
    norm_num [c2data, totalUnitsOf, unitA]
  have hspy : servicesPerYear (totalUnitsOf c2data.fleetUnits)
      (avgAnnualHoursOf c2data.fleetUnits) c2task = 10 := by
    simp [servicesPerYear, c2task, htu]
  have hrate : getLaborRate c2data.scenario c2task.skill_level = 100 := by decide
  have hlc : servicesPerYear (totalUnitsOf c2data.fleetUnits)
      (avgAnnualHoursOf c2data.fleetUnits) c2task * c2task.labor_hours
      * getLaborRate c2data.scenario c2task.skill_level = 2000 := by
    rw [hspy, hrate]
    norm_num [c2task]
  have hparts0 : partsPerService c2data.priceMap c2data.scenario.parts_discount_pct
      c2task.parts = 0 := by
    simp [partsPerService, c2task]
  have hlabor : totalAnnualLaborCostOf c2data = 2000 := by
    simp only [totalAnnualLaborCostOf, show c2data.pmTasks = [c2task] from rfl,
      List.map_cons, List.map_nil, List.sum_cons, List.sum_nil, add_zero]
    exact hlc
  have hpartsTot : totalAnnualPartsCostOf c2data = 0 := by
    simp only [totalAnnualPartsCostOf, show c2data.pmTasks = [c2task] from rfl,
      List.map_cons, List.map_nil, List.sum_cons, List.sum_nil, add_zero]
    rw [hparts0]; ring
  have htot : totalAnnualMaintenanceCostOf c2data = 2300 := by
    rw [totalAnnualMaintenanceCostOf, annualOverheadOf, maintenanceBaseOf, hlabor, hpartsTot]
    norm_num [show c2data.scenario.overhead_markup_pct = 15 from rfl]
  have hone : oneTimeCostsOf c2data = 2000 := by
    simp only [oneTimeCostsOf, taskBreakdownOf, show c2data.pmTasks = [c2task] from rfl,
      List.map_cons, List.map_nil]
    simp only [taskRow, List.filter_cons, List.filter_nil,
      show c2task.is_one_time = true from rfl, if_pos, List.map_cons, List.map_nil,
      List.sum_cons, List.sum_nil, add_zero]
    rw [hparts0, zero_mul, hlc, add_zero]
    exact round2_eval (n := 2000) (by norm_num) (by norm_num)
  have hinfl : c2data.scenario.inflation_rate_pct = 0 := rfl
  have hymc1 : yearMaintenanceCostOf c2data 1 = 2300 := by
    rw [yearMaintenanceCostOf]
    norm_num [htot, hinfl]
  have hymc2 : yearMaintenanceCostOf c2data 2 = 300 := by
    rw [yearMaintenanceCostOf]
    norm_num [htot, hone, hinfl]
  have hymc3 : yearMaintenanceCostOf c2data 3 = 300 := by
    rw [yearMaintenanceCostOf]
    norm_num [htot, hone, hinfl]
  -- the emptied input
  have hlabor0 : totalAnnualLaborCostOf c2noTask = 0 := by
    simp [totalAnnualLaborCostOf, show c2noTask.pmTasks = [] from rfl]
  have hpartsTot0 : totalAnnualPartsCostOf c2noTask = 0 := by
    simp [totalAnnualPartsCostOf, show c2noTask.pmTasks = [] from rfl]
  have htot0 : totalAnnualMaintenanceCostOf c2noTask = 0 := by
    rw [totalAnnualMaintenanceCostOf, annualOverheadOf, maintenanceBaseOf, hlabor0, hpartsTot0]
    ring
  have hone0 : oneTimeCostsOf c2noTask = 0 := by
    simp [oneTimeCostsOf, taskBreakdownOf, show c2noTask.pmTasks = [] from rfl]
  have hymc0 : ∀ y : ℕ, yearMaintenanceCostOf c2noTask y = 0 := by
    intro y
    rw [yearMaintenanceCostOf, htot0, hone0]
    by_cases hy : 1 < y <;> simp [hy]
  refine ⟨?_, ?_, by norm_num⟩
  · show (annualProjectionsOf c2data).map (fun r => (r.year, r.maintenance_cost)) = _
    simp only [annualProjectionsOf, show c2data.scenario.analysis_period_years = 3 from rfl,
      hrange, List.map_cons, List.map_nil, projRowOf]
    rw [hymc1, hymc2, hymc3, hr2300, hr300]
  · show (annualProjectionsOf c2noTask).map (fun r => (r.year, r.maintenance_cost)) = _
    simp only [annualProjectionsOf, show c2noTask.scenario.analysis_period_years = 3 from rfl,
      hrange, List.map_cons, List.map_nil, projRowOf]
    rw [hymc0 1, hymc0 2, hymc0 3, hr0]

/-!
Claim C1 — component-replacement schedule at the horizon boundary.
-/

theorem rawEvent_year_one (infl cost : ℚ) (r : ℕ) :
    (rawEvent infl cost 1 r).year = (r : ℤ) := by
  simp [rawEvent]

theorem rawSchedule_ypr_one (p : ℕ) (infl cost : ℚ) :
    rawScheduleFor p infl cost 1 p
      = (List.range p).map (fun i => rawEvent infl cost 1 (i + 1)) := by
  unfold rawScheduleFor
  apply List.takeWhile_eq_self_iff.mpr
  intro e he
  obtain ⟨i, hi, rfl⟩ := List.mem_map.mp he
  have hip : i < p := List.mem_range.mp hi
  simp only [rawEvent_year_one]
  simp only [decide_eq_true_eq]
  exact_mod_cast Nat.succ_le_of_lt hip

/-- For a (lifecycle, unit) pair whose unit hours equal the component's life
hours (one replacement per year), `componentRepFor` succeeds and the entry's
schedule carries years `1..periodYears` — one event per year, the boundary
year `periodYears` included. -/
theorem componentRepFor_life_eq_hours (s : Scenario) (m : PriceMap) (p : ℕ)
    (lc : ComponentLifecycle) (u : FleetUnit)
    (hh : unitHours u = lc.expected_life_hours)
    (hpos : 0 < lc.expected_life_hours)
    (hp : 1 ≤ p) :
    ∃ rep cost, componentRepFor s m p lc u = some (rep, cost)
      ∧ rep.schedule.map (fun e => e.year)
        = (List.range p).map (fun i : ℕ => (i : ℤ) + 1)
      ∧ rep.replacements_over_period = p := by
  have hn : ¬((p : ℤ) ≤ 0) := by omega
  have hsched : ∀ cpr : ℚ, ((rawScheduleFor p (s.inflation_rate_pct / 100) cpr 1 p).map
      displayEvent).map (fun e => e.year)
      = (List.range p).map (fun i : ℕ => (i : ℤ) + 1) := by
    intro cpr
    rw [rawSchedule_ypr_one]
    simp only [List.map_map]
    apply List.map_congr_left
    intro i _
    simp only [Function.comp_apply, displayEvent, rawEvent_year_one]
    push_cast
    ring
  have hlen : ∀ cpr : ℚ, (rawScheduleFor p (s.inflation_rate_pct / 100) cpr 1 p).length
      = p := by
    intro cpr
    rw [rawSchedule_ypr_one]
    simp
  simp only [componentRepFor, hh, div_self hpos.ne', div_one, Int.floor_natCast,
    Int.toNat_natCast]
  rw [if_neg (by simp [not_le.mpr hpos]), if_neg hn]
  refine ⟨_, _, rfl, ?_, ?_⟩
  · show ((rawScheduleFor p (s.inflation_rate_pct / 100) _ 1 p).map displayEvent).map
      (fun e => e.year) = _
    exact hsched _
  · show (rawScheduleFor p (s.inflation_rate_pct / 100) _ 1 p).length = p
    exact hlen _

/-- For a single-unit, single-lifecycle analysis input whose unit hours equal
the component's life hours, the engine's component list is one entry whose
schedule is exactly years `1..periodYears`. -/
theorem singleComponentSchedule (d : AnalysisData) (lc : ComponentLifecycle) (u : FleetUnit)
    (hfleet : d.fleetUnits = [u]) (hlcs : d.componentLifecycles = [lc])
    (hmodel : u.equipment_model_id = lc.equipment_model_id)
    (hh : unitHours u = lc.expected_life_hours)
    (hpos : 0 < lc.expected_life_hours)
    (hp : 1 ≤ d.scenario.analysis_period_years) :
    (componentRepsOf d).map (fun c => c.schedule.map (fun e => e.year))
        = [(List.range d.scenario.analysis_period_years).map (fun i : ℕ => (i : ℤ) + 1)]
      ∧ (componentRepsOf d).map (fun c => c.replacements_over_period)
        = [d.scenario.analysis_period_years] := by
  obtain ⟨rep, cost, hpair, hyears, hcount⟩ :=
    componentRepFor_life_eq_hours d.scenario d.priceMap d.scenario.analysis_period_years
      lc u hh hpos hp
  have hpairs : componentPairsOf d = [(rep, cost)] := by
    simp only [componentPairsOf, hfleet, hlcs, List.flatMap_cons, List.flatMap_nil,
      List.append_nil]
    rw [List.filter_cons, if_pos (by simp [hmodel]), List.filter_nil,
      List.filterMap_cons, hpair, List.filterMap_nil]
  simp only [componentRepsOf, hpairs, List.map_cons, List.map_nil]
  exact ⟨by rw [hyears], by rw [hcount]⟩

/-- Scenario for claim C1: a 20-year horizon. -/
def c1scen : Scenario := { baseScen with analysis_period_years := 20 }

/-- One unit operating 8760 hours per year. -/
def c1unit : FleetUnit := { unitA with quantity := 1, annual_hours := 8760 }

/-- A component whose expected life is 8760 operating hours — one fleet year
per replacement. -/
def c1lc : ComponentLifecycle :=
  { equipment_model_id := 1
    component_name := "Engine Overhaul"
    category := some "engine"
    expected_life_hours := 8760
    replacement_labor_hours := 40
    criticality := some "high" }

/-- Analysis input for claim C1: the 8760-hour component against the
8760-hour unit over 20 years. -/
def c1data : AnalysisData :=
  { scenario := c1scen
    fleetUnits := [c1unit]
    pmTasks := []
    priceMap := []
    componentLifecycles := [c1lc] }

/-- C1 counterexample: for `lifeHours = 8760`, `avgAnnualHours = 8760`,
`periodYears = 20` the scheduler produces 20 replacement events, in years 1
through 20 — the event at the 20th multiple, which falls exactly on the
horizon boundary, is included (`if (year > analysisPeriod) break` admits
`year = analysisPeriod`), not excluded; the claim says 19 events with year
20 dropped. -/
theorem c1_counterexample :
    (componentRepsOf c1data).map (fun c => c.replacements_over_period) = [20]
      ∧ (componentRepsOf c1data).map (fun c => c.schedule.map (fun e => e.year))
        = [[1, 2, 3, 4, 5, 6, 7, 8, 9, 10, 11, 12, 13, 14, 15, 16, 17, 18, 19, 20]]
      ∧ (20 : ℕ) ≠ 19 := by
  obtain ⟨h1, h2⟩ := singleComponentSchedule c1data c1lc c1unit rfl rfl rfl
    (by norm_num [unitHours, jsOr, c1unit, unitA, c1lc])
    (by norm_num [c1lc]) (by norm_num [c1data, c1scen, baseScen])
  refine ⟨?_, ?_, by decide⟩
  · rw [h2]; rfl
  · rw [h1]
    have : (List.range c1data.scenario.analysis_period_years).map (fun i : ℕ => (i : ℤ) + 1)
        = [1, 2, 3, 4, 5, 6, 7, 8, 9, 10, 11, 12, 13, 14, 15, 16, 17, 18, 19, 20] := by
      decide
    rw [this]

/-- C1 (amended): with `lifeHours = avgAnnualHours` (one replacement per
fleet year) the scheduler emits exactly `periodYears` replacement events, in
years 1 through `periodYears` — the boundary event at the horizon year is
included, since the loop drops an event only when its year strictly exceeds
the horizon.  Each event's cost is the specialist-labor-plus-part cost
inflated by `(1+inflationRate)^year` (`componentRepFor`), and the engine's
result carries this list unchanged. -/
theorem c1_replacement_schedule (d : AnalysisData) (lc : ComponentLifecycle) (u : FleetUnit)
    (hfleet : d.fleetUnits = [u]) (hlcs : d.componentLifecycles = [lc])
    (hmodel : u.equipment_model_id = lc.equipment_model_id)
    (hh : unitHours u = lc.expected_life_hours)
    (hpos : 0 < lc.expected_life_hours)
    (hp : 1 ≤ d.scenario.analysis_period_years) :
    (componentRepsOf d).map (fun c => c.schedule.map (fun e => e.year))
        = [(List.range d.scenario.analysis_period_years).map (fun i : ℕ => (i : ℤ) + 1)]
      ∧ (componentRepsOf d).map (fun c => c.replacements_over_period)
        = [d.scenario.analysis_period_years]
      ∧ ∀ now : String,
          (runAnalysis now d).component_replacements.components = componentRepsOf d := by
  obtain ⟨h1, h2⟩ := singleComponentSchedule d lc u hfleet hlcs hmodel hh hpos hp
  exact ⟨h1, h2, fun now => rfl⟩

/-- C1 witness: the concrete 8760/8760/20-year input. -/
theorem c1_replacement_schedule_witness :
    (componentRepsOf c1data).map (fun c => c.schedule.map (fun e => e.year))
        = [(List.range c1data.scenario.analysis_period_years).map (fun i : ℕ => (i : ℤ) + 1)]
      ∧ (componentRepsOf c1data).map (fun c => c.replacements_over_period)
        = [c1data.scenario.analysis_period_years]
      ∧ ∀ now : String,
          (runAnalysis now c1data).component_replacements.components = componentRepsOf c1data :=
  c1_replacement_schedule c1data c1lc c1unit rfl rfl rfl
    (by norm_num [unitHours, jsOr, c1unit, unitA, c1lc])
    (by norm_num [c1lc]) (by norm_num [c1data, c1scen, baseScen])

/-!
Claim C8 — comparison of two scenarios.
-/

/-- C8: comparing exactly two successfully computed results with total NPVs
100 and 80 selects the 80-NPV scenario as `lowest_tco` and reports
`savings_vs_highest = 20`. -/
theorem c8_lowest_tco (r₁ r₂ : AnalysisResult)
    (h₁ : r₁.tco.total_npv = 100) (h₂ : r₂.tco.total_npv = 80) :
    (buildComparison [r₁, r₂]).lowest_tco
      = some
          { scenario_id := r₂.scenario_id
            scenario_name := r₂.scenario_name
            tco_npv := 80
            savings_vs_highest := 20 } := by
  have hs1 : (summarize r₁).tco_npv = 100 := h₁
  have hs2 : (summarize r₂).tco_npv = 80 := h₂
  have hnle : ¬((summarize r₁).tco_npv ≤ (summarize r₂).tco_npv) := by
    rw [hs1, hs2]; norm_num
  have hsort : sortByNpv [summarize r₁, summarize r₂]
      = [summarize r₂, summarize r₁] := by
    simp only [sortByNpv, sortInsert]
    rw [if_neg hnle]
  unfold buildComparison
  simp only [List.map_cons, List.map_nil, List.length_cons, List.length_nil]
  rw [if_pos (by norm_num), hsort]
  simp only [List.head?_cons, List.getLast?_cons_cons, List.getLast?_singleton]
  rw [hs1, hs2, show (100 : ℚ) - 80 = 20 by norm_num,
    round2_eval (q := 20) (r := 20) (n := 20) (by norm_num) (by norm_num)]
  rfl

/-- An all-blank result record, for instantiating comparison inputs. -/
def blankResult : AnalysisResult :=
  { scenario_id := 0
    scenario_name := ""
    calculated_at := ""
    fleet_summary :=
      { fleet_name := "", total_units := 0, total_kw := 0, average_annual_hours := 0,
        total_annual_kwh := 0 }
    maintenance_cost_summary :=
      { annual_labor_cost := 0, annual_parts_cost := 0, annual_overhead := 0,
        overhead_markup_pct := 0, total_annual_maintenance_cost := 0 }
    pm_task_breakdown := []
    staffing :=
      { total_annual_labor_hours := 0, available_hours_per_technician := 0,
        safety_factor := 1.15, technicians_needed := 0, utilization_without_safety := 0 }
    fuel_summary :=
      { enabled := false, fuel_cost_per_unit := 0, annual_fuel_cost := 0, details := [] }
    downtime_summary :=
      { enabled := false, downtime_cost_per_hour := 0, annual_downtime_cost := 0 }
    component_replacements := { total_cost_over_period := 0, components := [] }
    cost_per_kwh := 0
    tco :=
      { total_npv := 0, total_nominal := 0, analysis_period_years := 0,
        average_annual_cost := 0, average_annual_cost_npv := 0 }
    annual_projections := []
    parameters :=
      { analysis_period_years := 0, labor_rate := 0, labor_rate_specialist := 0,
        labor_rate_engineer := 0, parts_discount_pct := 0, overhead_markup_pct := 0,
        discount_rate_pct := 0, inflation_rate_pct := 0, fuel_cost_per_unit := 0,
        downtime_cost_per_hour := 0 } }

/-- A computed result whose total NPV is 100. -/
def res100 : AnalysisResult :=
  { blankResult with
      scenario_id := 1
      scenario_name := "Scenario 100"
      tco := { blankResult.tco with total_npv := 100 } }

/-- A computed result whose total NPV is 80. -/
def res80 : AnalysisResult :=
  { blankResult with
      scenario_id := 2
      scenario_name := "Scenario 80"
      tco := { blankResult.tco with total_npv := 80 } }

/-- C8 witness: the two concrete results with NPVs 100 and 80. -/
theorem c8_lowest_tco_witness :
    (buildComparison [res100, res80]).lowest_tco
      = some
          { scenario_id := res80.scenario_id
            scenario_name := res80.scenario_name
            tco_npv := 80
            savings_vs_highest := 20 } :=
  c8_lowest_tco res100 res80 rfl rfl

/-!
Claim C9 — staffing-ramp invariants of calculator.js.
-/

/-- If the running maximum of commissioning months exceeds `c ≥ acc`, some
unit with a positive rate exceeds `c`. -/
theorem maxC_exists_of_lt {c : ℤ} :
    ∀ (l : List CalcUnit) (a : ℤ),
      c < l.foldl (fun acc u =>
        if 0 < calcRate u then max acc ⌈calcQty u / calcRate u⌉ else acc) a →
      c < a ∨ ∃ u ∈ l, 0 < calcRate u ∧ c < ⌈calcQty u / calcRate u⌉ := by
  intro l
  induction l with
  | nil => exact fun a h => Or.inl h
  | cons u t ih =>
    intro a h
    simp only [List.foldl_cons] at h
    rcases ih _ h with h' | ⟨u', hm, hr, hc⟩
    · by_cases hru : 0 < calcRate u
      · rw [if_pos hru] at h'
        rcases lt_max_iff.mp h' with h'' | h''
        · exact Or.inl h''
        · exact Or.inr ⟨u, List.mem_cons_self u t, hru, h''⟩
      · rw [if_neg hru] at h'
        exact Or.inl h'
    · exact Or.inr ⟨u', List.mem_cons_of_mem u hm, hr, hc⟩

/-- Active units at any month never exceed the fleet total. -/
theorem calcUnitsActive_le (units : List CalcUnit) (m : ℕ) :
    calcUnitsActive units m ≤ calcTotalUnits units := by
  simp only [calcUnitsActive, calcTotalUnits]
  exact List.sum_le_sum fun u _ => min_le_left _ _

/-- C9 (amended): for a nonnegative total of annual labor hours, every row
of the staffing ramp satisfies `units_active ≤` the fleet total and
`technicians ≤` the required-technician count; the ramp has
`min(36, max(12, maxCommissioningMonths + 6))` rows, always between 12 and
36; and when the commissioning horizon exceeds **36** months (not 30) the
ramp ends before full deployment — every row, the last included, has
`units_active` strictly below the fleet total.  (For horizons of 31-36
months the cap at 36 still leaves the ramp long enough to reach full
deployment; see the counterexample.) -/
theorem c9_staffing_ramp (units : List CalcUnit) (avail labor : ℚ) (hl : 0 ≤ labor) :
    12 ≤ rampMonthsOf units
      ∧ rampMonthsOf units ≤ 36
      ∧ rampMonthsOf units = min 36 (max 12 (maxCommissioningMonthsOf units + 6))
      ∧ (staffingTimelineOf units (calcTechsRequired avail labor)).length
        = (rampMonthsOf units).toNat
      ∧ (∀ row ∈ staffingTimelineOf units (calcTechsRequired avail labor),
          row.units_active ≤ calcTotalUnits units
            ∧ row.technicians ≤ calcTechsRequired avail labor)
      ∧ (36 < maxCommissioningMonthsOf units →
          ∀ row ∈ staffingTimelineOf units (calcTechsRequired avail labor),
            row.units_active < calcTotalUnits units) := by
  have hT : 0 ≤ calcTechsRequired avail labor := by
    unfold calcTechsRequired
    by_cases ha : 0 < avail
    · rw [if_pos ha]
      exact Int.ceil_nonneg (mul_nonneg (div_nonneg hl ha.le) (by norm_num))
    · rw [if_neg ha]
  have hramp36 : rampMonthsOf units ≤ 36 := min_le_left _ _
  refine ⟨le_min (by norm_num) (le_max_left _ _), hramp36, rfl, by simp [staffingTimelineOf],
    ?_, ?_⟩
  · intro row hrow
    obtain ⟨i, _, rfl⟩ := List.mem_map.mp hrow
    refine ⟨calcUnitsActive_le units (i + 1), ?_⟩
    show calcTechsAtMonth units (calcTechsRequired avail labor) (i + 1)
      ≤ calcTechsRequired avail labor
    unfold calcTechsAtMonth
    by_cases htu : 0 < calcTotalUnits units
    · rw [if_pos htu, Int.ceil_le]
      have hdiv : calcUnitsActive units (i + 1) / calcTotalUnits units ≤ 1 :=
        (div_le_one htu).mpr (calcUnitsActive_le units (i + 1))
      calc calcUnitsActive units (i + 1) / calcTotalUnits units
            * (calcTechsRequired avail labor : ℚ)
          ≤ 1 * (calcTechsRequired avail labor : ℚ) :=
            mul_le_mul_of_nonneg_right hdiv (by exact_mod_cast hT)
        _ = (calcTechsRequired avail labor : ℚ) := one_mul _
    · rw [if_neg htu]
      exact hT
  · intro h36 row hrow
    obtain ⟨i, hi, rfl⟩ := List.mem_map.mp hrow
    have him : ((i : ℤ) + 1 : ℤ) ≤ 36 := by
      have h1 : i < (rampMonthsOf units).toNat := List.mem_range.mp hi
      omega
    obtain ⟨u₀, hmem, hrate, hceil⟩ :=
      (maxC_exists_of_lt units 0 h36).resolve_left (by omega)
    have hq : (36 : ℚ) < calcQty u₀ / calcRate u₀ := by
      exact_mod_cast Int.lt_ceil.mp hceil
    have hqty : 36 * calcRate u₀ < calcQty u₀ := (lt_div_iff₀ hrate).mp hq
    have hlt : calcRate u₀ * ((i + 1 : ℕ) : ℚ) < calcQty u₀ := by
      have hm : ((i + 1 : ℕ) : ℚ) ≤ 36 := by exact_mod_cast him
      calc calcRate u₀ * ((i + 1 : ℕ) : ℚ) ≤ calcRate u₀ * 36 :=
            mul_le_mul_of_nonneg_left hm hrate.le
        _ = 36 * calcRate u₀ := mul_comm _ _
        _ < calcQty u₀ := hqty
    show calcUnitsActive units (i + 1) < calcTotalUnits units
    simp only [calcUnitsActive, calcTotalUnits]
    exact List.sum_lt_sum _ _ (fun u _ => min_le_left _ _)
      ⟨u₀, hmem, lt_of_le_of_lt (min_le_right _ _) hlt⟩

/-- Fleet for the C9 witness: 40 units commissioned one per month — a
40-month horizon, beyond the 36-row cap. -/
def units9b : List CalcUnit := [{ quantity := 40, commissioning_rate_per_month := 1 }]

/-- C9 witness: the 40-month-horizon fleet with 3000 annual labor hours and
1500 available hours per technician. -/
theorem c9_staffing_ramp_witness :
    12 ≤ rampMonthsOf units9b
      ∧ rampMonthsOf units9b ≤ 36
      ∧ rampMonthsOf units9b = min 36 (max 12 (maxCommissioningMonthsOf units9b + 6))
      ∧ (staffingTimelineOf units9b (calcTechsRequired 1500 3000)).length
        = (rampMonthsOf units9b).toNat
      ∧ (∀ row ∈ staffingTimelineOf units9b (calcTechsRequired 1500 3000),
          row.units_active ≤ calcTotalUnits units9b
            ∧ row.technicians ≤ calcTechsRequired 1500 3000)
      ∧ (36 < maxCommissioningMonthsOf units9b →
          ∀ row ∈ staffingTimelineOf units9b (calcTechsRequired 1500 3000),
            row.units_active < calcTotalUnits units9b) :=
  c9_staffing_ramp units9b 1500 3000 (by norm_num)

/-- Fleet for the C9 counterexample: 32 units at one per month — a 32-month
commissioning horizon. -/
def units9 : List CalcUnit := [{ quantity := 32, commissioning_rate_per_month := 1 }]

/-- C9 counterexample: the claim says a commissioning horizon longer than 30
months makes the ramp end before full deployment.  For a 32-month horizon
(32 units at 1/month) the ramp is capped at 36 rows, and at its final month
36 — indeed already at month 32 — all 32 units are active: the ramp reaches
full deployment. -/
theorem c9_counterexample :
    maxCommissioningMonthsOf units9 = 32
      ∧ 30 < maxCommissioningMonthsOf units9
      ∧ rampMonthsOf units9 = 36
      ∧ (staffingTimelineOf units9 3).length = 36
      ∧ calcUnitsActive units9 36 = calcTotalUnits units9 := by
  have hceil : (⌈calcQty { quantity := 32, commissioning_rate_per_month := 1 }
      / calcRate { quantity := 32, commissioning_rate_per_month := 1 }⌉ : ℤ) = 32 := by
    have : calcQty { quantity := 32, commissioning_rate_per_month := (1 : ℚ) }
        / calcRate { quantity := 32, commissioning_rate_per_month := (1 : ℚ) } = 32 := by
      norm_num [calcQty, calcRate, jsOr]
    rw [this]
    exact ceil_eval (by norm_num) (by norm_num)
  have hmax : maxCommissioningMonthsOf units9 = 32 := by
    simp only [units9, maxCommissioningMonthsOf, List.foldl_cons, List.foldl_nil]
    rw [if_pos (by norm_num [calcQty, calcRate, jsOr]), hceil]
    rfl
  have hramp : rampMonthsOf units9 = 36 := by
    rw [rampMonthsOf, hmax]
    rfl
  refine ⟨hmax, by rw [hmax]; norm_num, hramp, ?_, ?_⟩
  · simp [staffingTimelineOf, hramp]
  · norm_num [calcUnitsActive, calcTotalUnits, units9, calcQty, calcRate, jsOr]

/-!
Claim C6 — the reported B10/B50 characteristic lives.
-/

theorem Gamma_five : Real.Gamma 5 = 24 := by
  rw [show (5 : ℝ) = (4 : ℕ) + 1 by norm_num, Real.Gamma_nat_eq_factorial]
  norm_num [Nat.factorial]

theorem Gamma_six : Real.Gamma 6 = 120 := by
  rw [show (6 : ℝ) = (5 : ℕ) + 1 by norm_num, Real.Gamma_nat_eq_factorial]
  norm_num [Nat.factorial]

/-- Log-convex interpolation of Gamma between 5 and 6:
`Γ(41/8)^8 ≤ Γ(5)^7 · Γ(6) = 24^7 · 120`. -/
theorem Gamma_interp_bound : Real.Gamma (41/8 : ℝ) ^ (8 : ℕ) ≤ 24 ^ (7 : ℕ) * 120 := by
  have hc := Real.convexOn_log_Gamma
  have key := hc.2 (by norm_num : (5 : ℝ) ∈ Set.Ioi (0 : ℝ))
    (by norm_num : (6 : ℝ) ∈ Set.Ioi (0 : ℝ))
    (by norm_num : (0 : ℝ) ≤ 7/8) (by norm_num : (0 : ℝ) ≤ 1/8) (by norm_num)
  rw [show (7/8 : ℝ) • (5 : ℝ) + (1/8 : ℝ) • (6 : ℝ) = 41/8 by norm_num] at key
  simp only [Function.comp_apply, smul_eq_mul] at key
  rw [Gamma_five, Gamma_six] at key
  have hpos : 0 < Real.Gamma (41/8 : ℝ) := Real.Gamma_pos_of_pos (by norm_num)
  have hlog : Real.log (Real.Gamma (41/8 : ℝ) ^ (8 : ℕ)) ≤ Real.log ((24 : ℝ) ^ (7 : ℕ) * 120) := by
    rw [Real.log_pow,
      show Real.log ((24 : ℝ) ^ (7 : ℕ) * 120) = 7 * Real.log 24 + Real.log 120 by
        rw [Real.log_mul (by positivity) (by norm_num), Real.log_pow]; norm_num]
    push_cast
    nlinarith [key]
  exact (Real.log_le_log_iff (by positivity) (by positivity)).mp hlog

/-- The eighth power of `Γ(9/8)` is below `0.6931`. -/
theorem Gamma_nine_eighths_pow_lt : Real.Gamma (9/8 : ℝ) ^ (8 : ℕ) < 6931/10000 := by
  have e1 : Real.Gamma (41/8 : ℝ) = (33/8 : ℝ) * Real.Gamma (33/8) := by
    rw [show (41/8 : ℝ) = 33/8 + 1 by norm_num, Real.Gamma_add_one (by norm_num)]
  have e2 : Real.Gamma (33/8 : ℝ) = (25/8 : ℝ) * Real.Gamma (25/8) := by
    rw [show (33/8 : ℝ) = 25/8 + 1 by norm_num, Real.Gamma_add_one (by norm_num)]
  have e3 : Real.Gamma (25/8 : ℝ) = (17/8 : ℝ) * Real.Gamma (17/8) := by
    rw [show (25/8 : ℝ) = 17/8 + 1 by norm_num, Real.Gamma_add_one (by norm_num)]
  have e4 : Real.Gamma (17/8 : ℝ) = (9/8 : ℝ) * Real.Gamma (9/8) := by
    rw [show (17/8 : ℝ) = 9/8 + 1 by norm_num, Real.Gamma_add_one (by norm_num)]
  have key : Real.Gamma (9/8 : ℝ) = (4096/126225 : ℝ) * Real.Gamma (41/8 : ℝ) := by
    rw [e1, e2, e3, e4]; ring
  calc Real.Gamma (9/8 : ℝ) ^ (8 : ℕ)
      = (4096/126225 : ℝ) ^ (8 : ℕ) * Real.Gamma (41/8 : ℝ) ^ (8 : ℕ) := by
        rw [key, mul_pow]
    _ ≤ (4096/126225 : ℝ) ^ (8 : ℕ) * (24 ^ (7 : ℕ) * 120) :=
        mul_le_mul_of_nonneg_left Gamma_interp_bound (by positivity)
    _ < 6931/10000 := by norm_num

/-- C6 counterexample: at `meanLife = 10000`, `shape = 8` the reported
median life exceeds the mean life — `B50 > meanLife` — because for large
wear-out shapes the Weibull median `η·(0.6931)^(1/β)` is above the mean
`η·Γ(1+1/β)` (the distribution is left-skewed there); so the claimed chain
`B10 < B50 < meanLife` fails for a shape strictly greater than 1. -/
theorem c6_counterexample :
    ¬ (b10Life 10000 8 < b50Life 10000 8 ∧ b50Life 10000 8 < 10000) := by
  have hG : 0 < Real.Gamma (9/8 : ℝ) := Real.Gamma_pos_of_pos (by norm_num)
  have hlt : Real.Gamma (9/8 : ℝ) < (6931/10000 : ℝ) ^ ((1 : ℝ)/8) := by
    have heq : Real.Gamma (9/8 : ℝ)
        = (Real.Gamma (9/8 : ℝ) ^ (8 : ℕ)) ^ ((1 : ℝ)/8) := by
      rw [← Real.rpow_natCast (Real.Gamma (9/8 : ℝ)) 8, ← Real.rpow_mul hG.le]
      norm_num
    rw [heq]
    exact Real.rpow_lt_rpow (by positivity) Gamma_nine_eighths_pow_lt (by norm_num)
  have hb50 : (10000 : ℝ) < b50Life 10000 8 := by
    unfold b50Life weibullEta
    rw [show (1 : ℝ) + 1/8 = 9/8 by norm_num]
    have hfrac : (0 : ℝ) < 10000 / Real.Gamma (9/8 : ℝ) := by positivity
    have h1 : 10000 / Real.Gamma (9/8 : ℝ) * Real.Gamma (9/8 : ℝ)
        < 10000 / Real.Gamma (9/8 : ℝ) * (6931/10000 : ℝ) ^ ((1 : ℝ)/8) :=
      mul_lt_mul_of_pos_left hlt hfrac
    rw [div_mul_cancel₀ _ hG.ne'] at h1
    convert h1 using 2
    norm_num
  rintro ⟨-, hb⟩
  exact absurd hb (not_lt.mpr hb50.le)

/-- C6 (amended): for every mean life > 0 and Weibull shape > 1 the reported
characteristic quantities satisfy `B10 < B50` and `B10 < meanLife`; the
remaining inequality `B50 < meanLife` of the claim does not follow from
`shape > 1` alone (it fails for the larger wear-out shapes — see the
counterexample at shape 8). -/
theorem c6_weibull_characteristics (meanLife shape : ℝ)
    (hm : 0 < meanLife) (hs : 1 < shape) :
    b10Life meanLife shape < b50Life meanLife shape
      ∧ b10Life meanLife shape < meanLife := by
  have hspos : 0 < shape := lt_trans one_pos hs
  have hs0 : 0 < 1/shape := by positivity
  have hs1 : 1/shape < 1 := by
    rw [div_lt_one hspos]; exact hs
  have harg : (0 : ℝ) < 1 + 1/shape := by linarith
  have hGpos : 0 < Real.Gamma (1 + 1/shape) := Real.Gamma_pos_of_pos harg
  have heta : 0 < weibullEta meanLife shape := div_pos hm hGpos
  constructor
  · unfold b10Life b50Life
    exact mul_lt_mul_of_pos_left
      (Real.rpow_lt_rpow (by norm_num) (by norm_num) hs0) heta
  · -- reduces to `0.1054 ^ (1/shape) < Γ(1 + 1/shape)`
    have hconv := Real.convexOn_log_Gamma.2
      (Set.mem_Ioi.mpr harg)
      (Set.mem_Ioi.mpr (by linarith : (0 : ℝ) < 2 + 1/shape))
      (le_of_lt hs0) (by linarith : (0 : ℝ) ≤ 1 - 1/shape) (by ring)
    rw [show (1/shape) • ((1 : ℝ) + 1/shape) + (1 - 1/shape) • ((2 : ℝ) + 1/shape)
      = 2 by simp only [smul_eq_mul]; ring] at hconv
    simp only [Function.comp_apply, smul_eq_mul] at hconv
    have hG2 : Real.Gamma (2 : ℝ) = 1 := by
      rw [show (2 : ℝ) = (1 : ℕ) + 1 by norm_num, Real.Gamma_nat_eq_factorial]
      norm_num [Nat.factorial]
    have hGshift : Real.Gamma ((2 : ℝ) + 1/shape)
        = (1 + 1/shape) * Real.Gamma (1 + 1/shape) := by
      rw [show (2 : ℝ) + 1/shape = (1 + 1/shape) + 1 by ring,
        Real.Gamma_add_one harg.ne']
    rw [hG2, Real.log_one, hGshift,
      Real.log_mul harg.ne' hGpos.ne'] at hconv
    have hlog1s : Real.log (1 + 1/shape) ≤ 1/shape := by
      have := Real.log_le_sub_one_of_pos harg
      linarith
    have hlognn : 0 ≤ Real.log (1 + 1/shape) :=
      Real.log_nonneg (by linarith)
    have hL : -(1/shape) ≤ Real.log (Real.Gamma (1 + 1/shape)) := by nlinarith
    have hlog1054 : Real.log (0.1054 : ℝ) < -1 := by
      rw [Real.log_lt_iff_lt_exp (by norm_num), Real.exp_neg,
        show (0.1054 : ℝ) = ((10000/1054 : ℝ))⁻¹ by norm_num]
      exact inv_strictAnti₀ (Real.exp_pos 1)
        (lt_trans Real.exp_one_lt_d9 (by norm_num))
    have hmain : Real.log (0.1054 : ℝ) * (1/shape)
        < Real.log (Real.Gamma (1 + 1/shape)) := by nlinarith
    have hstrict : (0.1054 : ℝ) ^ ((1 : ℝ)/shape) < Real.Gamma (1 + 1/shape) := by
      have hexp := Real.exp_lt_exp.mpr hmain
      rwa [← Real.rpow_def_of_pos (by norm_num : (0 : ℝ) < 0.1054),
        Real.exp_log hGpos] at hexp
    unfold b10Life weibullEta
    have h1 : meanLife / Real.Gamma (1 + 1/shape) * (0.1054 : ℝ) ^ ((1 : ℝ)/shape)
        < meanLife / Real.Gamma (1 + 1/shape) * Real.Gamma (1 + 1/shape) :=
      mul_lt_mul_of_pos_left hstrict (by positivity)
    rwa [div_mul_cancel₀ _ hGpos.ne'] at h1

/-- C6 witness: mean life 10000, shape 2. -/
theorem c6_weibull_characteristics_witness :
    b10Life 10000 2 < b50Life 10000 2 ∧ b10Life 10000 2 < 10000 :=
  c6_weibull_characteristics 10000 2 (by norm_num) (by norm_num)

end PMtool
